import Mathlib

/-!
Shallow embedding of `src/chaos_kitten/brain/attack_planner.py`.

The module defines a dataclass `AttackProfile` and a class `AttackPlanner`
with methods `load_attack_profiles` (whose body is `pass`) and
`plan_attacks` (a rule-based stub that emits one hardcoded SQL-injection
attack whenever the endpoint has parameters or a request body).
Python dictionaries with fixed key sets are embedded as structures;
heterogeneous dictionary values as the inductive `PyVal`; the filesystem
contents read by a loader as an explicit argument; a Python method that can
in principle raise as an `Except`-returning function (the bodies in this
module raise nothing, so every embedded result is `Except.ok`).
-/

/-- Embeds heterogeneous Python dictionary values (used for the
`success_indicators` mapping of a profile, e.g. a key mapped to 500). -/
inductive PyVal where
  | str : String → PyVal
  | int : Int → PyVal
  | bool : Bool → PyVal
deriving DecidableEq

/-- Embeds the `AttackProfile` dataclass (attack_planner.py lines 12-23). -/
structure AttackProfile where
  name : String
  category : String
  severity : String
  description : String
  payloads : List String
  target_fields : List String
  success_indicators : List (String × PyVal)
  remediation : String := ""
  references : List String := []
deriving DecidableEq

/-- Embeds one element of an endpoint's `parameters` list, a dict with keys
name, in, type (the key `in` is a Lean keyword, embedded as `in_`). -/
structure Param where
  name : String
  in_ : String
  type : String
deriving DecidableEq

/-- Embeds the endpoint dict consumed by `plan_attacks`: keys path, method,
parameters, requestBody (the request-body field map name to type). -/
structure Endpoint where
  path : String
  method : String
  parameters : List Param
  requestBody : List (String × String)
deriving DecidableEq

/-- Embeds the attack dict literal built by `plan_attacks`
(attack_planner.py lines 96-103): keys type, name, description, payload
(a dict from field name to payload string), target_param, expected_status.
Note the literal has no expected_indicators, field, location or severity
key. -/
structure Attack where
  type : String
  name : String
  description : String
  payload : List (String × String)
  target_param : String
  expected_status : Int
deriving DecidableEq

/-- Modelled from the spec: the error taxonomy (ValidationError,
ConflictError, NotLoadedError, CycleError). The source module defines none
of these exception classes; the embedding carries them in `Except` results
so that claims about failure modes are statable. The embedded methods never
construct any of them, because the Python bodies raise nothing. -/
inductive PlannerError where
  | validationError : PlannerError
  | conflictError : PlannerError
  | notLoadedError : PlannerError
  | cycleError : PlannerError
deriving DecidableEq

/-- Embeds the `AttackPlanner` instance state set in `__init__`
(attack_planner.py lines 36-49): the endpoints list, the toys_path, and the
`attack_profiles` list initialised to empty. -/
structure AttackPlanner where
  endpoints : List Endpoint
  toys_path : String := "toys/"
  attack_profiles : List AttackProfile := []
deriving DecidableEq

/-- Embeds `AttackPlanner.load_attack_profiles` (attack_planner.py lines
51-55). The body is a TODO stub consisting of `pass`: it reads nothing,
raises nothing and assigns nothing. The `docs` argument embeds the profile
documents present under the toys directory (the filesystem state a real
loader would read); the body ignores it and returns the state unchanged. -/
def AttackPlanner.load_attack_profiles (self : AttackPlanner)
    (docs : List AttackProfile) : Except PlannerError AttackPlanner :=
  let _ := docs
  Except.ok self

/-- Embeds `AttackPlanner.plan_attacks` (attack_planner.py lines 57-105).
The body ignores `self.attack_profiles` entirely: it appends one hardcoded
SQL-injection attack dict exactly when the endpoint's parameters list or
requestBody dict is truthy (non-empty), with target_param a conditional on
parameters alone, and returns the accumulated list. It raises nothing. -/
def AttackPlanner.plan_attacks (self : AttackPlanner) (endpoint : Endpoint) :
    Except PlannerError (List Attack) :=
  let _ := self
  let params := endpoint.parameters
  let body := endpoint.requestBody
  let attacks : List Attack :=
    if params ≠ [] ∨ body ≠ [] then
      [{ type := "sql_injection",
         name := "Basic SQLi Probe",
         description := "Injects a basic SQL payload to test for errors",
         payload := [("q", "\x27 OR 1=1 --")],
         target_param := if params ≠ [] then "q" else "body",
         expected_status := 500 }]
    else []
  Except.ok attacks

/-- Embeds `AttackPlanner.reason_about_field` (attack_planner.py lines
107-122): a TODO stub returning a fixed format string. -/
def AttackPlanner.reason_about_field (self : AttackPlanner)
    (field_name : String) (field_type : String) : String :=
  let _ := self
  "Standard testing for " ++ field_type ++ " field \x27" ++ field_name ++ "\x27"

/-- The sqli_probe example profile from the spec: severity high, two
payloads, target_fields q, success indicator status_code 500. -/
def sqli_probe : AttackProfile :=
  { name := "sqli_probe",
    category := "injection",
    severity := "high",
    description := "",
    payloads := ["\x27 OR 1=1--", "\x27; DROP TABLE x;--"],
    target_fields := ["q"],
    success_indicators := [("status_code", PyVal.int 500)] }

/-- The GET /search endpoint from the spec, with one query parameter q. -/
def searchEndpoint : Endpoint :=
  { path := "/search",
    method := "GET",
    parameters := [{ name := "q", in_ := "query", type := "string" }],
    requestBody := [] }

/-- The single attack dict `plan_attacks` builds for an endpoint whose
parameters list is non-empty. -/
def basicSqliAttackQ : Attack :=
  { type := "sql_injection",
    name := "Basic SQLi Probe",
    description := "Injects a basic SQL payload to test for errors",
    payload := [("q", "\x27 OR 1=1 --")],
    target_param := "q",
    expected_status := 500 }

/-- A freshly constructed planner that has never completed a load. -/
def freshPlanner : AttackPlanner :=
  { endpoints := [], toys_path := "toys/", attack_profiles := [] }

/-- A planner whose snapshot holds exactly the sqli_probe example profile. -/
def examplePlanner : AttackPlanner :=
  { endpoints := [], toys_path := "toys/", attack_profiles := [sqli_probe] }

/-- A profile of severity critical targeting field q. -/
def profCritical : AttackProfile :=
  { name := "alpha_crit",
    category := "injection",
    severity := "critical",
    description := "",
    payloads := ["PAYLOAD_A"],
    target_fields := ["q"],
    success_indicators := [("status_code", PyVal.int 500)] }

/-- A profile of severity high targeting the same field q. -/
def profHigh : AttackProfile :=
  { name := "beta_high",
    category := "injection",
    severity := "high",
    description := "",
    payloads := ["PAYLOAD_B"],
    target_fields := ["q"],
    success_indicators := [("body_regex", PyVal.str "error")] }

/-- Two distinct profile documents sharing the same name. -/
def dupDocA : AttackProfile :=
  { name := "dup",
    category := "injection",
    severity := "high",
    description := "first",
    payloads := ["x"],
    target_fields := [],
    success_indicators := [] }

/-- Second document with the name of dupDocA but different content. -/
def dupDocB : AttackProfile :=
  { name := "dup",
    category := "fuzzing",
    severity := "low",
    description := "second",
    payloads := ["y"],
    target_fields := ["q"],
    success_indicators := [] }

/-- An endpoint with no parameters and no request body. -/
def bareEndpoint : Endpoint :=
  { path := "/ping",
    method := "GET",
    parameters := [],
    requestBody := [] }

/-- An attack is attributable to a global profile of the snapshot when some
profile with empty target_fields shares its name. -/
def fromGlobalProfile (s : AttackPlanner) (a : Attack) : Prop :=
  ∃ p ∈ s.attack_profiles, p.name = a.name ∧ p.target_fields = []

/-- C1: the claim says plan on the sqli_probe example snapshot and the GET
/search endpoint returns exactly 2 steps (one per payload). In the code it
returns exactly 1 attack: the step count is 1, not 2. -/
theorem c1_counterexample :
    (examplePlanner.plan_attacks searchEndpoint).map List.length =
      Except.ok 1 ∧ (1 : Nat) ≠ 2 := by
  exact ⟨rfl, by decide⟩

/-- C1 amended: plan_attacks performs no per-payload expansion and ignores
the profile snapshot: for the GET /search endpoint it returns exactly the
single hardcoded SQLi attack, whatever profiles are loaded. -/
theorem c1_amended (ps : List AttackProfile) (eps : List Endpoint)
    (tp : String) :
    (AttackPlanner.mk eps tp ps).plan_attacks searchEndpoint =
      Except.ok [basicSqliAttackQ] := rfl

/-- C2: loading one valid profile document indexes nothing: the body of
load_attack_profiles is pass, so the state (with its empty attack_profiles
list) is returned unchanged and the indexed-profile count stays 0, not 1. -/
theorem c2_load_indexes_nothing :
    freshPlanner.load_attack_profiles [sqli_probe] =
        Except.ok freshPlanner ∧
      freshPlanner.attack_profiles.length = 0 := ⟨rfl, rfl⟩

/-- C3: the claim says plan before any successful load fails with
NotLoadedError and returns no plan. In the code a never-loaded planner
returns a plan successfully and no error. -/
theorem c3_counterexample :
    freshPlanner.plan_attacks searchEndpoint = Except.ok [basicSqliAttackQ] ∧
      freshPlanner.plan_attacks searchEndpoint ≠
        Except.error PlannerError.notLoadedError :=
  ⟨rfl, fun h => Except.noConfusion h⟩

/-- C3 amended: plan_attacks succeeds for every endpoint whether or not any
load has completed; it never fails with NotLoadedError (the code has no
loaded-state check and raises nothing). -/
theorem c3_amended (s : AttackPlanner) (e : Endpoint) :
    ∃ l, s.plan_attacks e = Except.ok l ∧
      s.plan_attacks e ≠ Except.error PlannerError.notLoadedError := by
  refine ⟨_, rfl, fun h => Except.noConfusion h⟩

/-- C4: plan_attacks is deterministic: two calls on planners holding the
same profile snapshot with the same endpoint value return identical ordered
output. -/
theorem c4_plan_deterministic (s1 s2 : AttackPlanner) (e1 e2 : Endpoint)
    (hs : s1.attack_profiles = s2.attack_profiles) (he : e1 = e2) :
    s1.plan_attacks e1 = s2.plan_attacks e2 := by
  subst he
  rfl

/-- C4 witness: two planners sharing the sqli_probe snapshot but differing
elsewhere produce the same plan for the search endpoint. -/
theorem c4_witness :
    (AttackPlanner.mk [] "toys/" [sqli_probe]).attack_profiles =
        (AttackPlanner.mk [searchEndpoint] "other/" [sqli_probe]).attack_profiles ∧
      (AttackPlanner.mk [] "toys/" [sqli_probe]).plan_attacks searchEndpoint =
        (AttackPlanner.mk [searchEndpoint] "other/" [sqli_probe]).plan_attacks
          searchEndpoint :=
  ⟨rfl, c4_plan_deterministic _ _ _ _ rfl rfl⟩

/-- C5: the claim says with a critical and a high profile matching field q,
the critical profile's step comes first. In the code the plan for the
search endpoint is the single hardcoded attack, which carries neither
profile's name nor either profile's payloads: no profile-derived step is
emitted at all, so no step of the critical profile comes first. -/
theorem c5_counterexample :
    (AttackPlanner.mk [] "toys/" [profCritical, profHigh]).plan_attacks
        searchEndpoint = Except.ok [basicSqliAttackQ] ∧
      basicSqliAttackQ.name ≠ profCritical.name ∧
      basicSqliAttackQ.name ≠ profHigh.name ∧
      (∀ kv ∈ basicSqliAttackQ.payload, kv.2 ∉ profCritical.payloads) := by
  refine ⟨rfl, by decide, by decide, by decide⟩

/-- C5 amended: plan_attacks ignores the loaded profiles, so when a
critical and a high profile both target field q the plan for the search
endpoint is exactly the single hardcoded SQLi attack, which is not a step
of either profile; no severity ordering among profile steps takes place. -/
theorem c5_amended (eps : List Endpoint) (tp : String) :
    (AttackPlanner.mk eps tp [profCritical, profHigh]).plan_attacks
        searchEndpoint = Except.ok [basicSqliAttackQ] ∧
      ∀ a ∈ [basicSqliAttackQ],
        a.name ≠ profCritical.name ∧ a.name ≠ profHigh.name := by
  refine ⟨rfl, ?_⟩
  intro a ha
  rw [List.mem_singleton] at ha
  subst ha
  exact ⟨by decide, by decide⟩

/-- C6: the claim says loading two same-named documents fails with
ConflictError. In the code load_attack_profiles is a no-op that succeeds on
the duplicate input (the unchanged-state half of the claim does hold). -/
theorem c6_counterexample :
    freshPlanner.load_attack_profiles [dupDocA, dupDocB] =
        Except.ok freshPlanner ∧
      freshPlanner.load_attack_profiles [dupDocA, dupDocB] ≠
        Except.error PlannerError.conflictError :=
  ⟨rfl, fun h => Except.noConfusion h⟩

/-- C6 amended: for any load input holding two documents with the same
name, load succeeds (no ConflictError is ever raised) and the repository
state, its previously active snapshot included, is unchanged. -/
theorem c6_amended (s : AttackPlanner) (d1 d2 : AttackProfile)
    (h : d1.name = d2.name) :
    s.load_attack_profiles [d1, d2] = Except.ok s := by
  rfl

/-- C6 witness: the amended statement applied to the concrete duplicate
documents dupDocA and dupDocB on a fresh planner. -/
theorem c6_witness :
    dupDocA.name = dupDocB.name ∧
      freshPlanner.load_attack_profiles [dupDocA, dupDocB] =
        Except.ok freshPlanner :=
  ⟨rfl, c6_amended freshPlanner dupDocA dupDocB rfl⟩

/-- C8: for every endpoint with no parameters and no request body,
plan_attacks succeeds with a plan containing only steps attributable to
global profiles (vacuously: that plan is empty), and in particular the
plan is the empty sequence when no global profile is in the snapshot. -/
theorem c8_empty_endpoint (s : AttackPlanner) (e : Endpoint)
    (hp : e.parameters = []) (hb : e.requestBody = []) :
    ∃ l, s.plan_attacks e = Except.ok l ∧
      (∀ a ∈ l, fromGlobalProfile s a) ∧
      ((¬ ∃ p ∈ s.attack_profiles, p.target_fields = []) → l = []) := by
  refine ⟨[], ?_, ?_, ?_⟩
  · unfold AttackPlanner.plan_attacks
    rw [hp, hb]
    simp
  · intro a ha
    exact absurd ha (List.not_mem_nil a)
  · intro _
    rfl

/-- C8 witness: the bare /ping endpoint on a fresh planner without global
profiles satisfies the hypotheses, and its plan is empty. -/
theorem c8_witness :
    bareEndpoint.parameters = [] ∧ bareEndpoint.requestBody = [] ∧
      ∃ l, freshPlanner.plan_attacks bareEndpoint = Except.ok l ∧
        (∀ a ∈ l, fromGlobalProfile freshPlanner a) ∧
        ((¬ ∃ p ∈ freshPlanner.attack_profiles, p.target_fields = []) →
          l = []) :=
  ⟨rfl, rfl, c8_empty_endpoint freshPlanner bareEndpoint rfl rfl⟩

/-- C9: the claim says each emitted step's expected_indicators equals its
producing profile's success_indicators verbatim. In the code the attack
dict built for the search endpoint (profiles loaded or not) has only the
keys type, name, description, payload, target_param, expected_status: it
carries no expected_indicators at all and names no profile of the
snapshot, contradicting the docstring's documented return shape. -/
theorem c9_no_indicators :
    (AttackPlanner.mk [] "toys/" [sqli_probe]).plan_attacks searchEndpoint =
        Except.ok [basicSqliAttackQ] ∧
      basicSqliAttackQ.name ≠ sqli_probe.name := by
  exact ⟨rfl, by decide⟩

/-- C10: for every planner state and endpoint, plan_attacks returns the
empty list when both parameters and requestBody are empty, and otherwise
exactly one hardcoded SQLi attack whose payload maps q to the fixed SQL
string, expected_status 500, and target_param q when parameters is
non-empty and body otherwise, independent of the loaded profiles and of
the endpoint's actual parameter names. -/
theorem c10_plan_behavior (s : AttackPlanner) (e : Endpoint) :
    s.plan_attacks e = Except.ok (
      if e.parameters = [] ∧ e.requestBody = [] then []
      else [{ type := "sql_injection",
              name := "Basic SQLi Probe",
              description := "Injects a basic SQL payload to test for errors",
              payload := [("q", "\x27 OR 1=1 --")],
              target_param := if e.parameters = [] then "body" else "q",
              expected_status := 500 }]) := by
  unfold AttackPlanner.plan_attacks
  by_cases hp : e.parameters = [] <;> by_cases hb : e.requestBody = [] <;>
    simp [hp, hb]
